import Mathlib

/-!
Shallow embedding of `src/static/script.js` (Machine-Fault-Detector dashboard
client).  The script owns three chart widgets (line, donut, bar), validates an
eight-field sensor form, POSTs the form to `/predict`, and fetches `/logs`.
We model the DOM/chart state as an explicit record, network calls as explicit
response parameters, and JS numbers as rationals extended with NaN.
-/

/-- The eight sensor keys, in the fixed order of the `ranges` object literal
(which is also the bar chart's display order and the `ids` array order). -/
inductive SensorKey where
  | temp | pressure | flow | vibration | fillheight | power | co2 | humidity
deriving DecidableEq, Repr

/-- `Object.keys(ranges)` / the `ids` array: the keys in declaration order. -/
def keys : List SensorKey :=
  [.temp, .pressure, .flow, .vibration, .fillheight, .power, .co2, .humidity]

/-- The `ranges` object: per-key inclusive `[min, max]` safe bounds. -/
def ranges : SensorKey → ℚ × ℚ
  | .temp => (25, 45)
  | .pressure => (3, 5)
  | .flow => (140, 180)
  | .vibration => (0, 1)
  | .fillheight => (245, 255)
  | .power => (3, 5)
  | .co2 => (380, 450)
  | .humidity => (45, 60)

/-- A JS number as the script manipulates it: a rational, or NaN (the result
of `Number(...)` on non-numeric input).  Infinities never arise here. -/
inductive JSNum where
  | nan
  | num (q : ℚ)
deriving DecidableEq, Repr

/-- JS `<` against a plain number: every comparison with NaN is false. -/
def jsLt : JSNum → ℚ → Bool
  | .nan, _ => false
  | .num q, m => decide (q < m)

/-- JS `>` against a plain number: every comparison with NaN is false. -/
def jsGt : JSNum → ℚ → Bool
  | .nan, _ => false
  | .num q, m => decide (m < q)

/-- `Math.round` on a (finite) JS number: round half toward positive
infinity, i.e. `⌊q + 1/2⌋`. -/
def jsRound (q : ℚ) : ℤ :=
  ⌊q + 1/2⌋

/-- The `data.probability || 0` fallback: `undefined` (absent), `NaN` and `0`
are falsy and yield `0`; any other number passes through. -/
def jsOrZero : Option JSNum → ℚ
  | none => 0
  | some .nan => 0
  | some (.num q) => if q = 0 then 0 else q

/-- Value of a (non-empty) all-digit character list, `none` otherwise. -/
def natOfDigits (cs : List Char) : Option ℕ :=
  if cs ≠ [] ∧ cs.all Char.isDigit then
    some (cs.foldl (fun a c => a * 10 + (c.toNat - 48)) 0)
  else none

/-- Modelled fragment of the JS `Number(...)` string coercion used to build
the payload: optional leading minus, decimal digits, optional fractional
part; the empty string coerces to `0`; anything else (exponents, hex,
whitespace forms, garbage) is mapped to NaN.  No claim depends on the exact
numeric value produced here, only on the NaN case. -/
def jsNumber (s : String) : JSNum :=
  if s = "" then .num 0 else
  let (sign, t) : ℚ × String :=
    if s.startsWith "-" then (-1, s.drop 1) else (1, s)
  match t.splitOn "." with
  | [w] =>
    match natOfDigits w.toList with
    | some n => .num (sign * n)
    | none => .nan
  | [w, f] =>
    match natOfDigits w.toList, natOfDigits f.toList with
    | some wn, some fn => .num (sign * (wn + (fn : ℚ) / 10 ^ f.length))
    | _, _ => .nan
  | _ => .nan

/-- One record of the `/logs` response array. -/
structure LogEntry where
  timestamp : String
  probability : ℚ
deriving DecidableEq, Repr

/-- The parsed JSON body of a `/predict` response.  `error` is absent or a
string (JS truthiness of a string is non-emptiness); `probability` is absent
or a number (possibly NaN). -/
structure PredictData where
  error : Option String
  probability : Option JSNum
  error_code : String
  error_description : String
deriving DecidableEq, Repr

/-- Outcome of an awaited `fetch` + `res.json()`: a parsed body, or a
transport/parse failure caught by the surrounding `try`/`catch`. -/
inductive FetchResult (α : Type) where
  | ok (data : α)
  | err (msg : String)
deriving DecidableEq, Repr

/-- The observable page state the script mutates: the three charts' data,
the donut center text, the two error-detail text nodes, the per-field border
styles, plus event logs of alerts shown, console diagnostics written, and
network requests issued. -/
structure Dash where
  donutData : List ℤ
  donutCenter : String
  barData : List JSNum
  barColors : List String
  lineLabels : List String
  lineData : List ℤ
  errCode : String
  errDesc : String
  borders : SensorKey → String
  alerts : List String
  consoleLogs : List String
  requests : List String

/-- Page state right after the `load` handler has built the three charts and
set the donut center (before the initial `loadLogsChart()` call).  Initial
border styling comes from CSS outside this script and is modelled as `""`;
likewise the initial `errCode`/`errDesc` text. -/
def initDash : Dash where
  donutData := [100, 0]
  donutCenter := "0%"
  barData := keys.map fun _ => JSNum.num 0
  barColors := keys.map fun _ => "#29c37a"
  lineLabels := []
  lineData := []
  errCode := ""
  errDesc := ""
  borders := fun _ => ""
  alerts := []
  consoleLogs := []
  requests := []

/-- First `forEach` of `onPredict`: reset every field's border. -/
def resetBorders (s : Dash) : Dash :=
  { s with borders := fun _ => "1px solid #ccc" }

/-- Second `forEach` of `onPredict`: give every empty field a red border
(a JS string is falsy exactly when empty). -/
def markEmpty (fields : SensorKey → String) (s : Dash) : Dash :=
  { s with borders := fun k => if fields k = "" then "2px solid red" else s.borders k }

/-- The `allFilled` flag after the second `forEach`: true iff no field is
empty. -/
def allFilledB (fields : SensorKey → String) : Bool :=
  keys.all fun k => decide (fields k ≠ "")

/-- Bar color for one key: `(v < min || v > max) ? "#e63946" : "#29c37a"`. -/
def barColor (v : JSNum) (r : ℚ × ℚ) : String :=
  if jsLt v r.1 || jsGt v r.2 then "#e63946" else "#29c37a"

/-- `updateBarChart(values)`: recompute the data and color arrays over the
keys of `ranges`, replacing the previous ones. -/
def updateBarChart (values : SensorKey → JSNum) (s : Dash) : Dash :=
  { s with
    barData := keys.map fun k => values k
    barColors := keys.map fun k => barColor (values k) (ranges k) }

/-- `loadLogsChart()`: issue `GET /logs`; on success replace the line
chart's labels with the raw timestamps and its data with the rounded
percentages; on failure write one line to the console and touch nothing
else. -/
def loadLogsChart (resp : FetchResult (List LogEntry)) (s : Dash) : Dash :=
  let s1 := { s with requests := s.requests ++ ["GET /logs"] }
  match resp with
  | .ok logs =>
    { s1 with
      lineLabels := logs.map fun l => l.timestamp
      lineData := logs.map fun l => jsRound (l.probability * 100) }
  | .err e =>
    { s1 with consoleLogs := s1.consoleLogs ++ ["Log fetch error: " ++ e] }

/-- The tail of `onPredict` once `data.error` is falsy: donut update, error
details, bar update, then the log refresh. -/
def predictSuccess (payload : SensorKey → JSNum) (data : PredictData)
    (logsResp : FetchResult (List LogEntry)) (s : Dash) : Dash :=
  let p := jsRound (jsOrZero data.probability * 100)
  let s1 := { s with
    donutData := [100 - p, p]
    donutCenter := toString p ++ "%"
    errCode := data.error_code
    errDesc := data.error_description }
  loadLogsChart logsResp (updateBarChart payload s1)

/-- `onPredict()`: reset + mark borders; if a field is empty, alert and stop
before any network activity.  Otherwise build the coerced payload, POST it,
and handle the response: a caught transport/parse failure alerts; a truthy
`data.error` alerts and stops; otherwise the success path runs. -/
def onPredict (fields : SensorKey → String) (predictResp : FetchResult PredictData)
    (logsResp : FetchResult (List LogEntry)) (s : Dash) : Dash :=
  let s1 := markEmpty fields (resetBorders s)
  if allFilledB fields then
    let s2 := { s1 with requests := s1.requests ++ ["POST /predict"] }
    match predictResp with
    | .err e => { s2 with alerts := s2.alerts ++ ["Communication Error: " ++ e] }
    | .ok data =>
      match data.error with
      | some e =>
        if e = "" then predictSuccess (fun k => jsNumber (fields k)) data logsResp s2
        else { s2 with alerts := s2.alerts ++ ["Server Error: " ++ e] }
      | none => predictSuccess (fun k => jsNumber (fields k)) data logsResp s2
  else { s1 with alerts := s1.alerts ++ ["⚠ Please fill all fields."] }

/-- Index of a sensor key in the display order `keys`. -/
def keyIdx : SensorKey → ℕ
  | .temp => 0
  | .pressure => 1
  | .flow => 2
  | .vibration => 3
  | .fillheight => 4
  | .power => 5
  | .co2 => 6
  | .humidity => 7

/-- The bar color currently shown for a key: entry of `barColors` at the
key's display index. -/
def colorAt (s : Dash) (k : SensorKey) : String :=
  s.barColors.getD (keyIdx k) ""

/-- Helper: the displayed color of key `k` after `updateBarChart values` is
`barColor` of that key's value and range. -/
theorem colorAt_updateBarChart (values : SensorKey → JSNum) (s : Dash) (k : SensorKey) :
    colorAt (updateBarChart values s) k = barColor (values k) (ranges k) := by
  cases k <;> rfl

/-- C1: for every sensor key and every numeric submitted value, the bar is
colored red exactly when the value is strictly outside that key's `[min,max]`
range, and green exactly when it lies within the bounds inclusive. -/
theorem updateBarChart_red_green_iff (values : SensorKey → JSNum) (s : Dash)
    (k : SensorKey) (q : ℚ) (h : values k = JSNum.num q) :
    (colorAt (updateBarChart values s) k = "#e63946" ↔
      (q < (ranges k).1 ∨ (ranges k).2 < q)) ∧
    (colorAt (updateBarChart values s) k = "#29c37a" ↔
      ((ranges k).1 ≤ q ∧ q ≤ (ranges k).2)) := by
  rw [colorAt_updateBarChart, h]
  simp only [barColor, jsLt, jsGt, Bool.or_eq_true, decide_eq_true_eq]
  split_ifs with hout
  · constructor
    · exact ⟨fun _ => hout, fun _ => rfl⟩
    · constructor
      · intro habs
        exact absurd habs (by decide)
      · intro hin
        rcases hout with h1 | h1
        · exact absurd hin.1 (not_le.mpr h1)
        · exact absurd hin.2 (not_le.mpr h1)
  · constructor
    · constructor
      · intro habs
        exact absurd habs (by decide)
      · intro hor
        exact absurd hor hout
    · refine ⟨fun _ => ⟨?_, ?_⟩, fun _ => rfl⟩
      · exact le_of_not_lt fun hh => hout (Or.inl hh)
      · exact le_of_not_lt fun hh => hout (Or.inr hh)

/-- Witness for C1 at the concrete input `50` on key `temp` (range `[25,45]`,
so the bar is red). -/
theorem updateBarChart_red_green_iff_witness :
    ((fun _ => JSNum.num 50) SensorKey.temp = JSNum.num 50) ∧
    ((colorAt (updateBarChart (fun _ => JSNum.num 50) initDash) SensorKey.temp = "#e63946" ↔
        ((50 : ℚ) < (ranges SensorKey.temp).1 ∨ (ranges SensorKey.temp).2 < (50 : ℚ))) ∧
      (colorAt (updateBarChart (fun _ => JSNum.num 50) initDash) SensorKey.temp = "#29c37a" ↔
        ((ranges SensorKey.temp).1 ≤ (50 : ℚ) ∧ (50 : ℚ) ≤ (ranges SensorKey.temp).2))) :=
  ⟨rfl, updateBarChart_red_green_iff (fun _ => JSNum.num 50) initDash SensorKey.temp 50 rfl⟩

/-- C8: a NaN submitted value (as produced by `Number(...)` on non-numeric
input) renders the bar green, because both `v < min` and `v > max` are false
for NaN. -/
theorem updateBarChart_nan_green (values : SensorKey → JSNum) (s : Dash)
    (k : SensorKey) (h : values k = JSNum.nan) :
    colorAt (updateBarChart values s) k = "#29c37a" := by
  rw [colorAt_updateBarChart, h]
  rfl

/-- Witness for C8 on key `temp` with a NaN value. -/
theorem updateBarChart_nan_green_witness :
    ((fun _ => JSNum.nan) SensorKey.temp = JSNum.nan) ∧
    colorAt (updateBarChart (fun _ => JSNum.nan) initDash) SensorKey.temp = "#29c37a" :=
  ⟨rfl, updateBarChart_nan_green (fun _ => JSNum.nan) initDash SensorKey.temp rfl⟩

/-- Helper: `loadLogsChart` never touches the donut data. -/
theorem loadLogsChart_donutData (r : FetchResult (List LogEntry)) (s : Dash) :
    (loadLogsChart r s).donutData = s.donutData := by
  cases r <;> rfl

/-- Helper: `loadLogsChart` never touches the donut center text. -/
theorem loadLogsChart_donutCenter (r : FetchResult (List LogEntry)) (s : Dash) :
    (loadLogsChart r s).donutCenter = s.donutCenter := by
  cases r <;> rfl

/-- Helper: `loadLogsChart` never touches the field borders. -/
theorem loadLogsChart_borders (r : FetchResult (List LogEntry)) (s : Dash) :
    (loadLogsChart r s).borders = s.borders := by
  cases r <;> rfl

/-- Helper: `predictSuccess` never touches the field borders. -/
theorem predictSuccess_borders (payload : SensorKey → JSNum) (data : PredictData)
    (lr : FetchResult (List LogEntry)) (s : Dash) :
    (predictSuccess payload data lr s).borders = s.borders := by
  unfold predictSuccess
  rw [loadLogsChart_borders]
  rfl

/-- Helper: `predictSuccess` writes the two donut slices derived from the
response probability. -/
theorem predictSuccess_donutData (payload : SensorKey → JSNum) (data : PredictData)
    (lr : FetchResult (List LogEntry)) (s : Dash) :
    (predictSuccess payload data lr s).donutData =
      [100 - jsRound (jsOrZero data.probability * 100),
        jsRound (jsOrZero data.probability * 100)] := by
  unfold predictSuccess
  rw [loadLogsChart_donutData]
  rfl

/-- Helper: `predictSuccess` writes the percent string to the donut center. -/
theorem predictSuccess_donutCenter (payload : SensorKey → JSNum) (data : PredictData)
    (lr : FetchResult (List LogEntry)) (s : Dash) :
    (predictSuccess payload data lr s).donutCenter =
      toString (jsRound (jsOrZero data.probability * 100)) ++ "%" := by
  unfold predictSuccess
  rw [loadLogsChart_donutCenter]
  rfl

/-- Helper: after any `onPredict` run the border of each field is the reset
style for non-empty fields and the error style for empty ones, independent of
the previous border state. -/
theorem onPredict_borders_fun (fields : SensorKey → String) (pr : FetchResult PredictData)
    (lr : FetchResult (List LogEntry)) (s : Dash) :
    (onPredict fields pr lr s).borders =
      fun k => if fields k = "" then "2px solid red" else "1px solid #ccc" := by
  unfold onPredict
  split
  · split
    · rfl
    · split
      · split
        · cases lr <;> rfl
        · rfl
      · cases lr <;> rfl
  · rfl

/-- C7: the validation pass first resets all borders and then marks the empty
fields, so the final border of every field is the error style exactly when
the field is empty and the reset style otherwise — whatever it was before. -/
theorem onPredict_reset_then_mark (fields : SensorKey → String) (pr : FetchResult PredictData)
    (lr : FetchResult (List LogEntry)) (s : Dash) (k : SensorKey) :
    (onPredict fields pr lr s).borders k =
      if fields k = "" then "2px solid red" else "1px solid #ccc" := by
  rw [onPredict_borders_fun]

/-- C2: if some field is empty, `onPredict` issues no network request at all,
and every empty field (here an arbitrary one, `k`) gets the red error
border. -/
theorem onPredict_empty_no_request (fields : SensorKey → String) (pr : FetchResult PredictData)
    (lr : FetchResult (List LogEntry)) (s : Dash) (k0 k : SensorKey)
    (h0 : fields k0 = "") (hk : fields k = "") :
    (onPredict fields pr lr s).requests = s.requests ∧
    (onPredict fields pr lr s).borders k = "2px solid red" := by
  have hall : ¬ allFilledB fields = true := by
    intro habs
    rw [allFilledB, List.all_eq_true] at habs
    have hmem : k0 ∈ keys := by cases k0 <;> decide
    have := habs k0 hmem
    rw [decide_eq_true_eq] at this
    exact this h0
  constructor
  · unfold onPredict
    rw [if_neg hall]
    rfl
  · rw [onPredict_borders_fun]
    simp [hk]

/-- Concrete form state for the C2 witness: `temp` and `flow` are empty, the
other six fields hold `"7"`. -/
def fieldsTwoEmpty : SensorKey → String :=
  fun k => if k = SensorKey.temp ∨ k = SensorKey.flow then "" else "7"

/-- Witness for C2: with `temp` and `flow` empty, no request is issued and
the second empty field `flow` (not just the first) is marked red. -/
theorem onPredict_empty_no_request_witness :
    fieldsTwoEmpty SensorKey.temp = "" ∧ fieldsTwoEmpty SensorKey.flow = "" ∧
    ((onPredict fieldsTwoEmpty (.ok ⟨none, none, "", ""⟩) (.ok []) initDash).requests =
        initDash.requests ∧
      (onPredict fieldsTwoEmpty (.ok ⟨none, none, "", ""⟩) (.ok []) initDash).borders
          SensorKey.flow = "2px solid red") :=
  ⟨by decide, by decide,
    onPredict_empty_no_request fieldsTwoEmpty (.ok ⟨none, none, "", ""⟩) (.ok []) initDash
      SensorKey.temp SensorKey.flow (by decide) (by decide)⟩

/-- Helper: when every field is filled and the response body carries no
`error` field, `onPredict` runs the success path on the state with reset/
marked borders and the recorded POST. -/
theorem onPredict_success_eq (fields : SensorKey → String) (data : PredictData)
    (lr : FetchResult (List LogEntry)) (s : Dash)
    (hfill : allFilledB fields = true) (herr : data.error = none) :
    onPredict fields (.ok data) lr s =
      predictSuccess (fun k => jsNumber (fields k)) data lr
        { markEmpty fields (resetBorders s) with
          requests := s.requests ++ ["POST /predict"] } := by
  unfold onPredict
  rw [if_pos hfill]
  obtain ⟨oe, op, ec, ed⟩ := data
  cases oe with
  | none => rfl
  | some e => exact absurd herr (by simp)

/-- Helper: the `data.probability || 0` fallback is the identity on every
plain number (for `0` both sides are `0`). -/
theorem jsOrZero_num (q : ℚ) : jsOrZero (some (JSNum.num q)) = q := by
  simp only [jsOrZero]
  split_ifs with h
  · exact h.symm
  · rfl

/-- C3: on a successful `/predict` response whose probability is a plain
number `q` in `[0,1]`, the handler sets the donut to the two slices
`[100 - round(q*100), round(q*100)]` and the center text to that percent
followed by `%`. -/
theorem onPredict_donut_update (fields : SensorKey → String) (data : PredictData)
    (lr : FetchResult (List LogEntry)) (s : Dash) (q : ℚ)
    (hfill : allFilledB fields = true) (herr : data.error = none)
    (hp : data.probability = some (JSNum.num q)) (_hq0 : 0 ≤ q) (_hq1 : q ≤ 1) :
    (onPredict fields (.ok data) lr s).donutData =
      [100 - jsRound (q * 100), jsRound (q * 100)] ∧
    (onPredict fields (.ok data) lr s).donutCenter = toString (jsRound (q * 100)) ++ "%" := by
  rw [onPredict_success_eq fields data lr s hfill herr]
  constructor
  · rw [predictSuccess_donutData, hp, jsOrZero_num]
  · rw [predictSuccess_donutCenter, hp, jsOrZero_num]

/-- Concrete all-filled form state used by several witnesses. -/
def fieldsAllOne : SensorKey → String := fun _ => "1"

/-- Concrete successful response with probability `0.42` for the C3
witness. -/
def dataProb42 : PredictData := ⟨none, some (JSNum.num (42/100)), "E1", "ok"⟩

/-- Witness for C3: probability `0.42` yields donut slices `[58, 42]` and
center text `"42%"`. -/
theorem onPredict_donut_update_witness :
    allFilledB fieldsAllOne = true ∧ dataProb42.error = none ∧
    dataProb42.probability = some (JSNum.num (42/100)) ∧
    (0 : ℚ) ≤ 42/100 ∧ (42/100 : ℚ) ≤ 1 ∧
    (onPredict fieldsAllOne (.ok dataProb42) (.ok []) initDash).donutData = [58, 42] ∧
    (onPredict fieldsAllOne (.ok dataProb42) (.ok []) initDash).donutCenter = "42%" := by
  have h := onPredict_donut_update fieldsAllOne dataProb42 (.ok []) initDash (42/100)
    (by decide) rfl rfl (by norm_num) (by norm_num)
  have h42 : jsRound ((42 : ℚ)/100 * 100) = 42 := by norm_num [jsRound]
  refine ⟨by decide, rfl, rfl, by norm_num, by norm_num, h.1.trans ?_, h.2.trans ?_⟩
  · rw [h42]
    decide
  · rw [h42]
    rfl

/-- C9: on a successful `/predict` response whose probability is absent,
`0`, or NaN (all falsy in JS), the fallback `data.probability || 0` makes
the percent `0`: the donut becomes `[100, 0]` with center text `"0%"`. -/
theorem onPredict_falsy_probability (fields : SensorKey → String) (data : PredictData)
    (lr : FetchResult (List LogEntry)) (s : Dash)
    (hfill : allFilledB fields = true) (herr : data.error = none)
    (hp : data.probability = none ∨ data.probability = some JSNum.nan ∨
      data.probability = some (JSNum.num 0)) :
    (onPredict fields (.ok data) lr s).donutData = [100, 0] ∧
    (onPredict fields (.ok data) lr s).donutCenter = "0%" := by
  rw [onPredict_success_eq fields data lr s hfill herr]
  have h0 : jsOrZero data.probability = 0 := by
    rcases hp with h | h | h <;> rw [h] <;> simp [jsOrZero]
  have hz : jsRound ((0 : ℚ) * 100) = 0 := by norm_num [jsRound]
  constructor
  · rw [predictSuccess_donutData, h0, hz]
    decide
  · rw [predictSuccess_donutCenter, h0, hz]
    rfl

/-- Concrete successful response with a NaN probability for the C9
witness. -/
def dataProbNaN : PredictData := ⟨none, some JSNum.nan, "E0", "none"⟩

/-- Witness for C9: a NaN probability yields donut `[100, 0]` and center
text `"0%"`. -/
theorem onPredict_falsy_probability_witness :
    allFilledB fieldsAllOne = true ∧ dataProbNaN.error = none ∧
    (dataProbNaN.probability = none ∨ dataProbNaN.probability = some JSNum.nan ∨
      dataProbNaN.probability = some (JSNum.num 0)) ∧
    (onPredict fieldsAllOne (.ok dataProbNaN) (.ok []) initDash).donutData = [100, 0] ∧
    (onPredict fieldsAllOne (.ok dataProbNaN) (.ok []) initDash).donutCenter = "0%" := by
  have h := onPredict_falsy_probability fieldsAllOne dataProbNaN (.ok []) initDash
    (by decide) rfl (Or.inr (Or.inl rfl))
  exact ⟨by decide, rfl, Or.inr (Or.inl rfl), h.1, h.2⟩

/-- Helper: when every field is filled and the response's `error` field is a
non-empty (truthy) string, `onPredict` only records the POST, alerts, and
leaves everything else as the validation pass left it. -/
theorem onPredict_some_error_eq (fields : SensorKey → String) (data : PredictData)
    (lr : FetchResult (List LogEntry)) (s : Dash) (e : String)
    (hfill : allFilledB fields = true) (herr : data.error = some e) (hne : e ≠ "") :
    onPredict fields (.ok data) lr s =
      { markEmpty fields (resetBorders s) with
        requests := s.requests ++ ["POST /predict"]
        alerts := s.alerts ++ ["Server Error: " ++ e] } := by
  unfold onPredict
  rw [if_pos hfill]
  obtain ⟨oe, op, ec, ed⟩ := data
  cases oe with
  | none => exact absurd herr (by simp)
  | some e' =>
    have he' : e' = e := by simpa using herr
    subst he'
    dsimp only
    rw [if_neg hne]
    rfl

/-- Helper: the empty string is falsy in JS, so a response whose `error`
field is `""` takes the success path exactly like one with no `error`
field. -/
theorem onPredict_emptystring_error_eq (fields : SensorKey → String) (data : PredictData)
    (lr : FetchResult (List LogEntry)) (s : Dash)
    (hfill : allFilledB fields = true) (herr : data.error = some "") :
    onPredict fields (.ok data) lr s =
      predictSuccess (fun k => jsNumber (fields k)) data lr
        { markEmpty fields (resetBorders s) with
          requests := s.requests ++ ["POST /predict"] } := by
  unfold onPredict
  rw [if_pos hfill]
  obtain ⟨oe, op, ec, ed⟩ := data
  cases oe with
  | none => exact absurd herr (by simp)
  | some e' =>
    have he' : e' = "" := by simpa using herr
    subst he'
    dsimp only
    rw [if_pos rfl]
    rfl

/-- Concrete response whose `error` field is present but holds the empty
string, with probability `0.5`. -/
def dataEmptyError : PredictData := ⟨some "", some (JSNum.num (1/2)), "E", "D"⟩

/-- Counterexample to C4 as stated: this response contains an `error` field
(the empty string, falsy in JS), yet the handler does not stop — the donut
data is mutated away from its prior value. -/
theorem onPredict_error_field_mutates_cex :
    dataEmptyError.error = some "" ∧
    (onPredict fieldsAllOne (.ok dataEmptyError) (.ok []) initDash).donutData ≠
      initDash.donutData := by
  have he := onPredict_emptystring_error_eq fieldsAllOne dataEmptyError (.ok []) initDash
    (by decide) rfl
  have h50 : jsRound ((1 : ℚ)/2 * 100) = 50 := by norm_num [jsRound]
  constructor
  · rfl
  · rw [he, predictSuccess_donutData]
    rw [show jsOrZero dataEmptyError.probability = 1/2 from jsOrZero_num (1/2)]
    rw [h50]
    decide

/-- C4 (amended): for every `/predict` response whose `error` field is a
truthy (non-empty) string, the handler alerts the error and returns without
mutating any chart state: donut, bar and line data keep their prior
values. -/
theorem onPredict_truthy_error_atomic (fields : SensorKey → String) (data : PredictData)
    (lr : FetchResult (List LogEntry)) (s : Dash) (e : String)
    (hfill : allFilledB fields = true) (herr : data.error = some e) (hne : e ≠ "") :
    (onPredict fields (.ok data) lr s).donutData = s.donutData ∧
    (onPredict fields (.ok data) lr s).donutCenter = s.donutCenter ∧
    (onPredict fields (.ok data) lr s).barData = s.barData ∧
    (onPredict fields (.ok data) lr s).barColors = s.barColors ∧
    (onPredict fields (.ok data) lr s).lineLabels = s.lineLabels ∧
    (onPredict fields (.ok data) lr s).lineData = s.lineData ∧
    (onPredict fields (.ok data) lr s).alerts = s.alerts ++ ["Server Error: " ++ e] := by
  rw [onPredict_some_error_eq fields data lr s e hfill herr hne]
  exact ⟨rfl, rfl, rfl, rfl, rfl, rfl, rfl⟩

/-- Concrete response with a truthy `error` field for the C4 witness. -/
def dataBoom : PredictData := ⟨some "model unavailable", none, "", ""⟩

/-- Witness for the amended C4 at the response `{error:"model unavailable"}`
from the spec's example. -/
theorem onPredict_truthy_error_atomic_witness :
    allFilledB fieldsAllOne = true ∧ dataBoom.error = some "model unavailable" ∧
    "model unavailable" ≠ "" ∧
    ((onPredict fieldsAllOne (.ok dataBoom) (.ok []) initDash).donutData = initDash.donutData ∧
      (onPredict fieldsAllOne (.ok dataBoom) (.ok []) initDash).donutCenter = initDash.donutCenter ∧
      (onPredict fieldsAllOne (.ok dataBoom) (.ok []) initDash).barData = initDash.barData ∧
      (onPredict fieldsAllOne (.ok dataBoom) (.ok []) initDash).barColors = initDash.barColors ∧
      (onPredict fieldsAllOne (.ok dataBoom) (.ok []) initDash).lineLabels = initDash.lineLabels ∧
      (onPredict fieldsAllOne (.ok dataBoom) (.ok []) initDash).lineData = initDash.lineData ∧
      (onPredict fieldsAllOne (.ok dataBoom) (.ok []) initDash).alerts =
        initDash.alerts ++ ["Server Error: " ++ "model unavailable"]) :=
  ⟨by decide, rfl, by decide,
    onPredict_truthy_error_atomic fieldsAllOne dataBoom (.ok []) initDash "model unavailable"
      (by decide) rfl (by decide)⟩

/-- C10: the donut starts as `[100, 0]` with center `"0%"` (two entries
summing to 100); log refreshes never touch it; and every `onPredict` run
either leaves it unchanged or writes a pair `[100 - p, p]`, which again has
two entries summing to 100. -/
theorem donut_invariant :
    (initDash.donutData = [100, 0] ∧ initDash.donutCenter = "0%" ∧
      initDash.donutData.length = 2 ∧ initDash.donutData.sum = 100) ∧
    (∀ lr s, (loadLogsChart lr s).donutData = s.donutData) ∧
    (∀ fields pr lr s, (onPredict fields pr lr s).donutData = s.donutData ∨
      ∃ p : ℤ, (onPredict fields pr lr s).donutData = [100 - p, p] ∧
        (onPredict fields pr lr s).donutData.length = 2 ∧
        (onPredict fields pr lr s).donutData.sum = 100) := by
  refine ⟨⟨rfl, rfl, rfl, by decide⟩, loadLogsChart_donutData, ?_⟩
  intro fields pr lr s
  by_cases hall : allFilledB fields = true
  · rcases pr with ⟨oe, op, ec, ed⟩ | e
    · cases oe with
      | none =>
        right
        rw [onPredict_success_eq fields ⟨none, op, ec, ed⟩ lr s hall rfl]
        rw [predictSuccess_donutData]
        exact ⟨_, rfl, rfl, by simp⟩
      | some e =>
        by_cases he : e = ""
        · subst he
          right
          rw [onPredict_emptystring_error_eq fields ⟨some "", op, ec, ed⟩ lr s hall rfl]
          rw [predictSuccess_donutData]
          exact ⟨_, rfl, rfl, by simp⟩
        · left
          rw [onPredict_some_error_eq fields ⟨some e, op, ec, ed⟩ lr s e hall rfl he]
          rfl
    · left
      unfold onPredict
      rw [if_pos hall]
      rfl
  · left
    unfold onPredict
    rw [if_neg hall]
    rfl

/-- C5: a successful `/logs` fetch sets the line chart labels to exactly the
raw timestamp strings in order and the data to each probability times 100,
rounded — fully replacing the prior series; on the spec's example the labels
are `["t1","t2"]` and the data `[10, 50]`. -/
theorem loadLogsChart_replaces_series (logs : List LogEntry) (s : Dash) :
    (loadLogsChart (.ok logs) s).lineLabels = logs.map (fun l => l.timestamp) ∧
    (loadLogsChart (.ok logs) s).lineData =
      logs.map (fun l => jsRound (l.probability * 100)) ∧
    (loadLogsChart (.ok [⟨"t1", 1/10⟩, ⟨"t2", 1/2⟩]) s).lineLabels = ["t1", "t2"] ∧
    (loadLogsChart (.ok [⟨"t1", 1/10⟩, ⟨"t2", 1/2⟩]) s).lineData = [10, 50] := by
  refine ⟨rfl, rfl, rfl, ?_⟩
  show List.map (fun l : LogEntry => jsRound (l.probability * 100))
      [⟨"t1", 1/10⟩, ⟨"t2", 1/2⟩] = [10, 50]
  norm_num [jsRound]

/-- C6: a failed `/logs` fetch writes one line to the console and nothing
else: no alert is shown, the line chart keeps its stale labels and data, all
other chart state is untouched, and exactly one GET was attempted. -/
theorem loadLogsChart_failure_silent (e : String) (s : Dash) :
    (loadLogsChart (.err e) s).lineLabels = s.lineLabels ∧
    (loadLogsChart (.err e) s).lineData = s.lineData ∧
    (loadLogsChart (.err e) s).donutData = s.donutData ∧
    (loadLogsChart (.err e) s).donutCenter = s.donutCenter ∧
    (loadLogsChart (.err e) s).barData = s.barData ∧
    (loadLogsChart (.err e) s).barColors = s.barColors ∧
    (loadLogsChart (.err e) s).alerts = s.alerts ∧
    (loadLogsChart (.err e) s).borders = s.borders ∧
    (loadLogsChart (.err e) s).consoleLogs = s.consoleLogs ++ ["Log fetch error: " ++ e] ∧
    (loadLogsChart (.err e) s).requests = s.requests ++ ["GET /logs"] :=
  ⟨rfl, rfl, rfl, rfl, rfl, rfl, rfl, rfl, rfl, rfl⟩
